import Mathlib

/-!
Verification of the match-timing-driven voting scheduler of the farcaster
auto-vote repository (files farcaster_auto_vote_clean.py and
farcaster_auto_vote.py), as a shallow embedding.

Timestamps are modelled as integers on the UTC timeline (the code compares
timezone-aware UTC datetimes, a totally ordered set, and takes differences
via total_seconds).  An ISO time string is modelled by the outcome of
parsing it with the Python stdlib parser; fallible operations return Option.
-/

/-- An ISO-8601 time string as seen by datetime.fromisoformat: either it
parses to a (UTC-normalized) instant, or the parse raises and the string is
unparsable.  Values of this type model non-empty strings; an absent field is
Option.none at the use sites, so Python truthiness of a field is isSome. -/
inductive TimeStr where
  | valid (t : Int)
  | invalid
deriving DecidableEq

/-- Embedding of parse_iso_time (farcaster_auto_vote_clean.py lines 79-91):
on a successful stdlib parse the UTC instant is returned (the Z-suffix
rewrite and the UTC tz normalization are identities in this model, where a
valid string already denotes its UTC instant); on a parse exception the
function prints the error and returns None. -/
def parse_iso_time : TimeStr → Option Int
  | TimeStr.valid t => some t
  | TimeStr.invalid => none

/-- The timing-relevant fields of a match payload, each the result of
match_data.get on the corresponding key. -/
structure MatchTimes where
  votingStartTime : Option TimeStr
  votingEndTime : Option TimeStr
  endTime : Option TimeStr
deriving DecidableEq

/-- Line 138 of farcaster_auto_vote_clean.py: the voting-end string falls
back to the generic endTime field when votingEndTime is absent (Python or;
the fields model non-empty strings, so truthiness is isSome). -/
def votingEndStr (m : MatchTimes) : Option TimeStr :=
  match m.votingEndTime with
  | some s => some s
  | none => m.endTime

/-- The status strings returned by show_match_timing_info: waiting, open,
closed, unknown, error (voteOpen and voteClosed stand for the Python strings
open and closed; err stands for error). -/
inductive TimingStatus where
  | waiting
  | voteOpen
  | voteClosed
  | unknown
  | err
deriving DecidableEq

/-- Embedding of show_match_timing_info (farcaster_auto_vote_clean.py lines
134-166).  When either timestamp string is missing the else branch returns
(unknown, 0).  When both are present the code parses both and then compares:
if the start failed to parse, the comparison now_utc < voting_start raises a
TypeError that the outer except catches, returning (error, 0); if now is
before the start it returns (waiting, start - now) without ever comparing
the end; otherwise the chained comparison reaches now_utc <= voting_end,
which returns (error, 0) via the except when the end failed to parse, and
otherwise yields (open, end - now) or (closed, 0).  The printing calls
(format_time_wib swallows its own exceptions) have no effect on the result. -/
def show_match_timing_info (m : MatchTimes) (now : Int) : TimingStatus × Int :=
  match m.votingStartTime, votingEndStr m with
  | some start_s, some end_s =>
    match parse_iso_time start_s with
    | none => (TimingStatus.err, 0)
    | some voting_start =>
      if now < voting_start then
        (TimingStatus.waiting, voting_start - now)
      else
        match parse_iso_time end_s with
        | none => (TimingStatus.err, 0)
        | some voting_end =>
          if now ≤ voting_end then (TimingStatus.voteOpen, voting_end - now)
          else (TimingStatus.voteClosed, 0)
  | _, _ => (TimingStatus.unknown, 0)

/-- The per-cycle reaction of the continuous per-account loop to a timing
status (run_account_continuous_thread, lines 1112-1230): transientRetry
models the catch-all else branch that sleeps 120 seconds and retries. -/
inductive CycleAction where
  | waitForStart
  | voteNow
  | seekNextMatch
  | transientRetry
deriving DecidableEq

/-- Status dispatch of run_account_continuous_thread (farcaster_auto_vote_clean.py
lines 1112-1230): waiting waits until the start, open votes, closed searches
for the next match, and any other status (unknown, error) sleeps 120 seconds
and retries the cycle. -/
def cycleDispatch : TimingStatus → CycleAction
  | TimingStatus.waiting => CycleAction.waitForStart
  | TimingStatus.voteOpen => CycleAction.voteNow
  | TimingStatus.voteClosed => CycleAction.seekNextMatch
  | _ => CycleAction.transientRetry

/-- The mechType field values that matter to side selection; any other
string is otherType. -/
inductive MechType where
  | left
  | right
  | otherType
deriving DecidableEq

/-- One side (mech) of a match, projected to the fields side selection reads.
The three metric fields model m.get with default 0 (winningProbability, and
voteCount and fuelPoints inside mechVotes), so a missing metric is the value
0 here, exactly as the selection key sees it. -/
structure Mech where
  mechId : Nat
  mechType : Option MechType
  winningProbability : Nat
  voteCount : Nat
  fuelPoints : Nat
deriving DecidableEq

/-- The team preference strings recognized by select_mech_by_preference;
any other non-empty string (still truthy in Python) is otherPref. -/
inductive TeamPref where
  | blue
  | biru
  | kanan
  | right
  | red
  | merah
  | kiri
  | left
  | otherPref
deriving DecidableEq

/-- The blue alternatives of the preference test on line 705 of the clean file. -/
def prefWantsBlue : TeamPref → Bool
  | TeamPref.blue => true
  | TeamPref.biru => true
  | TeamPref.kanan => true
  | TeamPref.right => true
  | _ => false

/-- The red alternatives of the preference test on line 706 of the clean file. -/
def prefWantsRed : TeamPref → Bool
  | TeamPref.red => true
  | TeamPref.merah => true
  | TeamPref.kiri => true
  | TeamPref.left => true
  | _ => false

/-- The team_indicator local of the selection loop: blue, red, or the empty
string (indNone). -/
inductive TeamInd where
  | indBlue
  | indRed
  | indNone
deriving DecidableEq

/-- team_indicator in farcaster_auto_vote_clean.py (lines 690-702): index 0
is blue and index 1 is red; a mechType of left or right overrides to blue or
red respectively, any other mechType value leaves the positional value. -/
def teamIndicatorClean (i : Nat) (m : Mech) : TeamInd :=
  let base := if i = 0 then TeamInd.indBlue else if i = 1 then TeamInd.indRed else TeamInd.indNone
  match m.mechType with
  | some MechType.left => TeamInd.indBlue
  | some MechType.right => TeamInd.indRed
  | _ => base

/-- team_indicator in farcaster_auto_vote.py (lines 334-351): the reversed
convention, index 0 is red and index 1 is blue; mechType left overrides to
red and right to blue (the publicPossession block there assigns nothing). -/
def teamIndicatorOrig (i : Nat) (m : Mech) : TeamInd :=
  let base := if i = 0 then TeamInd.indRed else if i = 1 then TeamInd.indBlue else TeamInd.indNone
  match m.mechType with
  | some MechType.left => TeamInd.indRed
  | some MechType.right => TeamInd.indBlue
  | _ => base

/-- The preference test of lines 705-706: a blue-family preference matches a
blue indicator, a red-family preference matches a red indicator. -/
def prefMatches (p : TeamPref) (ind : TeamInd) : Bool :=
  (prefWantsBlue p && ind == TeamInd.indBlue) || (prefWantsRed p && ind == TeamInd.indRed)

/-- The enumerate loop of the preference branch: returns the first mech (in
list order, indices from i) whose team indicator matches the preference. -/
def findPrefMech (indicator : Nat → Mech → TeamInd) (p : TeamPref) : Nat → List Mech → Option Mech
  | _, [] => none
  | i, m :: rest =>
    if prefMatches p (indicator i m) then some m else findPrefMech indicator p (i + 1) rest

/-- Strict lexicographic comparison of the ranking key tuple
(winningProbability, voteCount, fuelPoints), as Python compares tuples. -/
def keyGt (a b : Mech) : Bool :=
  (decide (a.winningProbability > b.winningProbability)) ||
    ((a.winningProbability == b.winningProbability) &&
      ((decide (a.voteCount > b.voteCount)) ||
        ((a.voteCount == b.voteCount) && (decide (a.fuelPoints > b.fuelPoints)))))

/-- Python max over a non-empty list with the ranking key: scans left to
right and replaces the current best only on a strictly greater key, so the
first element with the maximal key is returned. -/
def pyMax : Mech → List Mech → Mech
  | best, [] => best
  | best, m :: rest => pyMax (if keyGt m best then m else best) rest

/-- Embedding of FarcasterAutoVote.select_mech_by_preference in
farcaster_auto_vote_clean.py (lines 668-721): empty list gives None; a
singleton list is returned unconditionally; with a truthy team preference
the first positionally matching mech is returned; otherwise the max of the
ranking-key tuple is returned. -/
def select_mech_by_preference (team_preference : Option TeamPref) (mech_details : List Mech) :
    Option Mech :=
  match mech_details with
  | [] => none
  | [m] => some m
  | m :: rest =>
    let viaPref :=
      match team_preference with
      | some p => findPrefMech teamIndicatorClean p 0 (m :: rest)
      | none => none
    match viaPref with
    | some chosen => some chosen
    | none => some (pyMax m rest)

/-- Embedding of FarcasterAutoVote.select_mech_by_preference in
farcaster_auto_vote.py (lines 312-366): same shape with the reversed
positional mapping, except that the fallback branch computes best_mech by
the same max call and then falls off the end of the function without a
return statement, so the caller receives None. -/
def select_mech_by_preference_orig (team_preference : Option TeamPref) (mech_details : List Mech) :
    Option Mech :=
  match mech_details with
  | [] => none
  | [m] => some m
  | m :: rest =>
    let viaPref :=
      match team_preference with
      | some p => findPrefMech teamIndicatorOrig p 0 (m :: rest)
      | none => none
    match viaPref with
    | some chosen => some chosen
    | none => none

/-- The three recognized fuel strategy strings (conservative, max, custom). -/
inductive FuelStrategy where
  | conservative
  | max
  | custom
deriving DecidableEq

/-- The per-account fuel amount computed by the sequential continuous loop
(continuous_multi_account_vote, farcaster_auto_vote_clean.py lines
1639-1647): conservative takes the threshold with no balance check, max
takes the whole balance, custom takes min(threshold, balance); the trailing
else for an unrecognized strategy string also takes the whole balance. -/
def seq_fuel_to_use (fuel_strategy : FuelStrategy) (current_fuel min_fuel_threshold : Nat) : Nat :=
  match fuel_strategy with
  | FuelStrategy.conservative => min_fuel_threshold
  | FuelStrategy.max => current_fuel
  | FuelStrategy.custom => min min_fuel_threshold current_fuel

/-- The per-cycle fuel amount of the threaded continuous loop
(run_account_continuous_thread, farcaster_auto_vote_clean.py lines
1048-1070): every strategy first requires balance at or above the threshold,
otherwise the cycle sleeps 300 seconds and retries (modelled as none);
conservative and custom then spend exactly the threshold, max spends the
entire balance. -/
def thread_fuel_to_use (fuel_strategy : FuelStrategy) (current_account_fuel min_fuel_threshold : Nat) :
    Option Nat :=
  match fuel_strategy with
  | FuelStrategy.conservative =>
    if current_account_fuel ≥ min_fuel_threshold then some min_fuel_threshold else none
  | FuelStrategy.custom =>
    if current_account_fuel ≥ min_fuel_threshold then some min_fuel_threshold else none
  | FuelStrategy.max =>
    if current_account_fuel ≥ min_fuel_threshold then some current_account_fuel else none

/-- The fuelPoints computed by submit_prediction when no explicit amount is
passed (farcaster_auto_vote_clean.py lines 814-826): with a truthy
fuel_amount (present and nonzero) it is min(fuel_amount, max_fuel,
current_fuel), otherwise min(current_fuel, max_fuel); current_fuel is the
balance refreshed at the top of submit_prediction.  The subsequent
insufficient-fuel guard (line 829) compares current_fuel with this value. -/
def submit_fuel_points (fuel_amount : Option Nat) (max_fuel current_fuel : Nat) : Nat :=
  match fuel_amount with
  | some fa => if fa ≠ 0 then min fa (min max_fuel current_fuel) else min current_fuel max_fuel
  | none => min current_fuel max_fuel

/-- The pre-vote delay bookkeeping of the threaded continuous loop:
last_match_id, is_first_vote and vote_delay_seconds as initialized on lines
1036-1038 of farcaster_auto_vote_clean.py. -/
structure DelayState where
  last_match_id : Option Nat
  is_first_vote : Bool
  vote_delay_seconds : Nat
deriving DecidableEq

/-- The state before the first cycle (lines 1036-1038). -/
def initialDelayState : DelayState := ⟨none, true, 0⟩

/-- The per-cycle delay update of run_account_continuous_thread (lines
1090-1106): only when the observed match id differs from last_match_id is
the delay reassigned, to 0 on the very first vote and to the random draw
(modelling random.randint(min_delay, max_delay)) on every later new match;
a cycle that revisits the same match id leaves the state unchanged. -/
def delay_step (s : DelayState) (match_id draw : Nat) : DelayState :=
  if s.last_match_id = some match_id then s
  else if s.is_first_vote then ⟨some match_id, false, 0⟩
  else ⟨some match_id, s.is_first_vote, draw⟩

/-- The per-account delay of one sequential cycle (continuous_multi_account_vote,
lines 1601-1618): 0 for every account in the first vote cycle, and a fresh
random draw from the configured range in every later cycle. -/
def seq_cycle_delay (is_first_vote_cycle : Bool) (draw : Nat) : Nat :=
  if is_first_vote_cycle then 0 else draw

/-- The scheduler events relevant to the re-check claim: a window
classification, a pre-vote delay sleep, and a vote submission. -/
inductive Event where
  | checkWindow
  | sleepDelay (n : Nat)
  | submitVote
deriving DecidableEq

/-- The event trace of one open-window cycle of run_account_continuous_thread
(farcaster_auto_vote_clean.py lines 1109 and 1145-1173): the cycle classifies
the window once (line 1109); then, when a start string is present and the
pending delay is positive, it sleeps off whatever part of the delay has not
yet elapsed since the voting start; then it calls submit_prediction (line
1173) directly, with no further window classification. -/
def open_branch_trace (has_start_str : Bool) (time_since_start vote_delay_seconds : Nat) :
    List Event :=
  Event.checkWindow ::
    (if has_start_str = true ∧ 0 < vote_delay_seconds then
      (if time_since_start < vote_delay_seconds then
        [Event.sleepDelay (vote_delay_seconds - time_since_start), Event.submitVote]
      else [Event.submitVote])
    else [Event.submitVote])

/-- Decides whether every submission in a trace is preceded by a window
check more recent than any delay sleep; the boolean argument records whether
the window has been checked since the last sleep. -/
def rechecked_before_submit : List Event → Bool → Bool
  | [], _ => true
  | Event.checkWindow :: rest, _ => rechecked_before_submit rest true
  | Event.sleepDelay _ :: rest, _ => rechecked_before_submit rest false
  | Event.submitVote :: rest, ok => ok && rechecked_before_submit rest ok

/-- One pass of the sequential continuous loop over (a copy of) the active
account list (continuous_multi_account_vote, farcaster_auto_vote_clean.py
lines 1620-1637): each account refreshes its fuel; an account whose
refreshed fuel is not positive is removed from the active list and the loop
continues with the next account; the others are kept in order.  Accounts
are identified by their index and fuel gives the balance read this cycle. -/
def cycle_active (fuel : Nat → Nat) : List Nat → List Nat
  | [] => []
  | a :: rest => if fuel a ≤ 0 then cycle_active fuel rest else a :: cycle_active fuel rest

/-- The timeout arguments of the outbound requests calls in
FarcasterAutoVote.get_latest_match_id (farcaster_auto_vote_clean.py lines
612-666): the single requests.get on line 625 passes no timeout. -/
def get_latest_match_id_timeouts : List (Option Nat) := [none]

/-- The timeout arguments of the outbound requests calls in
FarcasterAutoVote.get_user_fuel_info of farcaster_auto_vote.py (lines
398-428): the single requests.get on line 417 passes no timeout. -/
def get_user_fuel_info_orig_timeouts : List (Option Nat) := [none]

/-- The timeout arguments of the outbound requests calls in
FarcasterAutoVote.get_user_fuel_info of farcaster_auto_vote_clean.py (lines
364-452): the requests.get calls on lines 378, 385 and 402 each pass
timeout=10. -/
def get_user_fuel_info_clean_timeouts : List (Option Nat) := [some 10, some 10, some 10]

/-- The timeout argument of the outbound requests.put in
FarcasterAutoVote.submit_prediction (farcaster_auto_vote_clean.py line 871):
timeout=10. -/
def submit_prediction_timeouts : List (Option Nat) := [some 10]

/-- All outbound-call timeout arguments of the functions cited by the
timeout claim. -/
def cited_outbound_timeouts : List (Option Nat) :=
  get_latest_match_id_timeouts ++ get_user_fuel_info_orig_timeouts ++
    get_user_fuel_info_clean_timeouts ++ submit_prediction_timeouts

/-- The classification on a match whose two voting timestamps are present
and parse reduces to the three-way comparison of now against the bounds. -/
theorem classify_valid_eq (vs ve now : Int) (e2 : Option TimeStr) :
    show_match_timing_info ⟨some (TimeStr.valid vs), some (TimeStr.valid ve), e2⟩ now =
      if now < vs then (TimingStatus.waiting, vs - now)
      else if now ≤ ve then (TimingStatus.voteOpen, ve - now)
      else (TimingStatus.voteClosed, 0) := rfl

/-- The classification on a match with a parsable start and an unparsable
end string reduces to waiting before the start and error from the start on. -/
theorem classify_end_invalid_eq (vs now : Int) (e2 : Option TimeStr) :
    show_match_timing_info ⟨some (TimeStr.valid vs), some TimeStr.invalid, e2⟩ now =
      if now < vs then (TimingStatus.waiting, vs - now) else (TimingStatus.err, 0) := rfl

/-- Claim C1: for every match whose voting_start and voting_end timestamps
are both present and parse, with voting_start at most voting_end, the window
classification returns exactly one of waiting (when now is before the start,
with wait = start - now), open (when start is at most now is at most end,
with remaining = end - now) or closed (when now is past the end), and the
returned duration is non-negative and consistent with the position of now
relative to the two bounds. -/
theorem C1_window_classification (vs ve now : Int) (h : vs ≤ ve) :
    (now < vs →
      show_match_timing_info ⟨some (TimeStr.valid vs), some (TimeStr.valid ve), none⟩ now
        = (TimingStatus.waiting, vs - now) ∧ 0 ≤ vs - now) ∧
    (vs ≤ now → now ≤ ve →
      show_match_timing_info ⟨some (TimeStr.valid vs), some (TimeStr.valid ve), none⟩ now
        = (TimingStatus.voteOpen, ve - now) ∧ 0 ≤ ve - now) ∧
    (ve < now →
      show_match_timing_info ⟨some (TimeStr.valid vs), some (TimeStr.valid ve), none⟩ now
        = (TimingStatus.voteClosed, 0)) ∧
    ((show_match_timing_info ⟨some (TimeStr.valid vs), some (TimeStr.valid ve), none⟩ now).1
        = TimingStatus.waiting ∨
      (show_match_timing_info ⟨some (TimeStr.valid vs), some (TimeStr.valid ve), none⟩ now).1
        = TimingStatus.voteOpen ∨
      (show_match_timing_info ⟨some (TimeStr.valid vs), some (TimeStr.valid ve), none⟩ now).1
        = TimingStatus.voteClosed) ∧
    0 ≤ (show_match_timing_info ⟨some (TimeStr.valid vs), some (TimeStr.valid ve), none⟩ now).2 := by
  rw [classify_valid_eq]
  refine ⟨?_, ?_, ?_, ?_, ?_⟩
  · intro h1
    rw [if_pos h1]
    exact ⟨rfl, by omega⟩
  · intro h1 h2
    rw [if_neg (by omega), if_pos h2]
    exact ⟨rfl, by omega⟩
  · intro h1
    rw [if_neg (by omega), if_neg (by omega)]
  · split_ifs <;> simp
  · split_ifs <;> simp <;> omega

/-- Claim C1 witness: at start 10, end 70, now 40 the window is open with 30
remaining. -/
theorem C1_window_classification_witness :
    show_match_timing_info ⟨some (TimeStr.valid 10), some (TimeStr.valid 70), none⟩ 40
      = (TimingStatus.voteOpen, 30) :=
  ((C1_window_classification 10 70 40 (by decide)).2.1 (by decide) (by decide)).1

/-- Claim C4 counterexample: with an unparsable start string (and a present,
parsable end string) the classification returns the error status, not
unknown, refuting the claim that malformed timestamps yield Unknown. -/
theorem C4_counterexample :
    show_match_timing_info ⟨some TimeStr.invalid, some (TimeStr.valid 100), none⟩ 0
      = (TimingStatus.err, 0) ∧ TimingStatus.err ≠ TimingStatus.unknown := by
  exact ⟨rfl, by decide⟩

/-- Claim C4 (amended): a missing timestamp yields unknown; an unparsable
start string yields the error status, as does an unparsable end string once
now has reached the start (while an unparsable end with now before the start
still yields waiting); classification is a total function, so it never
raises, and the continuous loop treats both unknown and error as the same
transient condition (bounded sleep and retry), never as fatal. -/
theorem C4_unknown_and_error_transient :
    (∀ (m : MatchTimes) (now : Int), m.votingStartTime = none ∨ votingEndStr m = none →
      show_match_timing_info m now = (TimingStatus.unknown, 0)) ∧
    (∀ (e : TimeStr) (e2 : Option TimeStr) (now : Int),
      show_match_timing_info ⟨some TimeStr.invalid, some e, e2⟩ now = (TimingStatus.err, 0)) ∧
    (∀ (vs : Int) (e2 : Option TimeStr) (now : Int), vs ≤ now →
      show_match_timing_info ⟨some (TimeStr.valid vs), some TimeStr.invalid, e2⟩ now
        = (TimingStatus.err, 0)) ∧
    (∀ (vs : Int) (e2 : Option TimeStr) (now : Int), now < vs →
      show_match_timing_info ⟨some (TimeStr.valid vs), some TimeStr.invalid, e2⟩ now
        = (TimingStatus.waiting, vs - now)) ∧
    cycleDispatch TimingStatus.unknown = CycleAction.transientRetry ∧
    cycleDispatch TimingStatus.err = CycleAction.transientRetry := by
  refine ⟨?_, ?_, ?_, ?_, rfl, rfl⟩
  · rintro ⟨a, b, c⟩ now (h | h)
    · simp only at h
      subst h
      cases b <;> cases c <;> rfl
    · cases b with
      | some s => simp [votingEndStr] at h
      | none =>
        cases c with
        | some s => simp [votingEndStr] at h
        | none => cases a <;> rfl
  · intro e e2 now
    rfl
  · intro vs e2 now h
    rw [classify_end_invalid_eq, if_neg (by omega)]
  · intro vs e2 now h
    rw [classify_end_invalid_eq, if_pos h]

/-- Claim C4 witness: a match with no start timestamp classifies as unknown. -/
theorem C4_unknown_and_error_transient_witness :
    show_match_timing_info ⟨none, some (TimeStr.valid 5), none⟩ 0 = (TimingStatus.unknown, 0) :=
  C4_unknown_and_error_transient.1 ⟨none, some (TimeStr.valid 5), none⟩ 0 (Or.inl rfl)

/-- Claim C2: with two sides of win probability 40 and 65 and no preference,
the version in farcaster_auto_vote.py computes the best mech and then falls
off the end of the function, returning None instead of the side with 65 and
contradicting its own docstring; the clean version returns the side with 65. -/
theorem C2_missing_fallback :
    select_mech_by_preference_orig none
        [⟨1, none, 40, 0, 0⟩, ⟨2, none, 65, 0, 0⟩] = none ∧
    select_mech_by_preference none
        [⟨1, none, 40, 0, 0⟩, ⟨2, none, 65, 0, 0⟩] = some ⟨2, none, 65, 0, 0⟩ := by
  exact ⟨rfl, rfl⟩

/-- Claim C10: a candidate list with exactly one side returns that side
unconditionally, in both files, regardless of the configured preference and
of the ranking metrics of the side. -/
theorem C10_singleton_choice (p : Option TeamPref) (m : Mech) :
    select_mech_by_preference p [m] = some m ∧
    select_mech_by_preference_orig p [m] = some m :=
  ⟨rfl, rfl⟩

/-- Claim C3: in the sequential continuous loop the conservative strategy
computes the threshold as the fuel to use with no balance check, so with
balance 2 and threshold 3 the computed fuel-to-spend exceeds the balance,
refuting the claim that no strategy ever computes a spend above the balance;
by contrast the threaded per-cycle computation and the amount actually
submitted by submit_prediction are always bounded by the balance. -/
theorem C3_conservative_exceeds_balance :
    seq_fuel_to_use FuelStrategy.conservative 2 3 = 3 ∧
    ¬ (seq_fuel_to_use FuelStrategy.conservative 2 3 ≤ 2) ∧
    (∀ (s : FuelStrategy) (b t a : Nat), thread_fuel_to_use s b t = some a → a ≤ b) ∧
    (∀ (fa : Option Nat) (mf cf : Nat), submit_fuel_points fa mf cf ≤ cf) := by
  refine ⟨rfl, by decide, ?_, ?_⟩
  · intro s b t a h
    cases s <;> simp only [thread_fuel_to_use] at h <;> split_ifs at h with hbt <;>
      simp only [Option.some.injEq] at h <;> omega
  · intro fa mf cf
    cases fa with
    | some v =>
      by_cases hv : v ≠ 0
      · rw [submit_fuel_points, if_pos hv]
        omega
      · rw [submit_fuel_points, if_neg hv]
        omega
    | none =>
      rw [submit_fuel_points]
      omega

/-- Claim C3 witness: the threaded conservative computation at balance 7 and
threshold 3 spends 3, which is at most the balance. -/
theorem C3_conservative_exceeds_balance_witness : (3 : Nat) ≤ 7 :=
  C3_conservative_exceeds_balance.2.2.1 FuelStrategy.conservative 7 3 3 rfl

/-- Claim C5: the threaded loop implements Conservative as specified
(balance 7, threshold 3 spends 3; balance 2, threshold 3 is insufficient),
but the sequential loop computes fuel-to-use 3 at balance 2 with no
insufficiency check, and the submit-time cap then submits a 2-fuel vote
(fuel_amount 3, max_fuel and refreshed balance 2) instead of skipping the
cycle, contradicting the documented strategy. -/
theorem C5_conservative_scenarios :
    thread_fuel_to_use FuelStrategy.conservative 7 3 = some 3 ∧
    thread_fuel_to_use FuelStrategy.conservative 2 3 = none ∧
    seq_fuel_to_use FuelStrategy.conservative 2 3 = 3 ∧
    submit_fuel_points (some 3) 2 2 = 2 ∧ (2 : Nat) ≠ 0 := by
  exact ⟨rfl, rfl, rfl, rfl, by decide⟩

/-- Claim C6 counterexample: the first cycle on the first match votes with
delay 0 as claimed, but a second vote attempt on the same match (for
example after a failed submission) reuses the stored delay 0 instead of a
fresh uniform draw from the configured range, here 30 to 300, refuting the
claim that every subsequent vote uses a random in-range delay. -/
theorem C6_counterexample :
    (delay_step initialDelayState 1 77).vote_delay_seconds = 0 ∧
    (delay_step (delay_step initialDelayState 1 77) 1 88).vote_delay_seconds = 0 ∧
    ¬ (30 ≤ (delay_step (delay_step initialDelayState 1 77) 1 88).vote_delay_seconds) := by
  exact ⟨rfl, rfl, by decide⟩

/-- Claim C6 (amended): the delay is 0 on the very first vote; a fresh
random draw is taken only on cycles where the observed match id differs
from the last processed one; cycles that revisit the same match id reuse
the previous delay unchanged; and in the sequential mode every account
votes with delay 0 in the first cycle and with a fresh draw in every later
cycle. -/
theorem C6_delay_policy :
    (∀ (mid draw : Nat), delay_step initialDelayState mid draw = ⟨some mid, false, 0⟩) ∧
    (∀ (s : DelayState) (mid draw : Nat), s.last_match_id ≠ some mid → s.is_first_vote = false →
      delay_step s mid draw = ⟨some mid, false, draw⟩) ∧
    (∀ (s : DelayState) (mid draw : Nat), s.last_match_id = some mid →
      delay_step s mid draw = s) ∧
    (∀ draw : Nat, seq_cycle_delay true draw = 0) ∧
    (∀ draw : Nat, seq_cycle_delay false draw = draw) := by
  refine ⟨?_, ?_, ?_, fun _ => rfl, fun _ => rfl⟩
  · intro mid draw
    rfl
  · intro s mid draw h1 h2
    rw [delay_step, if_neg h1, if_neg (by rw [h2]; exact Bool.false_ne_true), h2]
  · intro s mid draw h1
    rw [delay_step, if_pos h1]

/-- Claim C6 witness: a non-first cycle that observes a new match id takes
the fresh draw as its delay. -/
theorem C6_delay_policy_witness :
    delay_step ⟨some 5, false, 99⟩ 6 42 = ⟨some 6, false, 42⟩ :=
  C6_delay_policy.2.1 ⟨some 5, false, 99⟩ 6 42 (by decide) rfl

/-- Claim C7 counterexample: an open-window cycle with a pending delay of 60
seconds sleeps the delay and then submits with no window check between the
sleep and the submission, refuting the claim that the window is always
re-checked after the delay before submitting. -/
theorem C7_counterexample :
    open_branch_trace true 0 60
      = [Event.checkWindow, Event.sleepDelay 60, Event.submitVote] ∧
    rechecked_before_submit (open_branch_trace true 0 60) true = false := by
  exact ⟨rfl, rfl⟩

/-- Claim C7 (amended): in the open-window branch, whenever the pending
delay is positive and not yet elapsed, the cycle is exactly one window
classification, one sleep of the remaining delay, and an immediate
submission, with no re-check of the window between the sleep and the
submission (a fresh classification happens only at the top of a cycle). -/
theorem C7_no_recheck_after_delay (t d : Nat) (h1 : 0 < d) (h2 : t < d) :
    open_branch_trace true t d
      = [Event.checkWindow, Event.sleepDelay (d - t), Event.submitVote] ∧
    rechecked_before_submit (open_branch_trace true t d) true = false := by
  have htrace : open_branch_trace true t d
      = [Event.checkWindow, Event.sleepDelay (d - t), Event.submitVote] := by
    rw [open_branch_trace, if_pos ⟨rfl, h1⟩, if_pos h2]
  exact ⟨htrace, by rw [htrace]; rfl⟩

/-- Claim C7 witness: with 10 of a 60-second delay elapsed, the cycle sleeps
the remaining 50 and submits without a further check. -/
theorem C7_no_recheck_after_delay_witness :
    open_branch_trace true 10 60
      = [Event.checkWindow, Event.sleepDelay 50, Event.submitVote] :=
  (C7_no_recheck_after_delay 10 60 (by decide) (by decide)).1

/-- Claim C8 counterexample: account 1 reports fuel 5 in the first cycle and
0 in the second, and is removed from the active set immediately after that
single zero-fuel report, refuting the claim that removal happens only after
zero fuel across consecutive cycles; account 2 remains active. -/
theorem C8_counterexample :
    cycle_active (fun a => if a = 1 then 5 else 4) [1, 2] = [1, 2] ∧
    cycle_active (fun a => if a = 1 then 0 else 3)
      (cycle_active (fun a => if a = 1 then 5 else 4) [1, 2]) = [2] := by
  exact ⟨rfl, rfl⟩

/-- Claim C8 (amended): an account survives a pass of the sequential loop
over the active set exactly when the fuel it reports that cycle is
positive, so an account is removed in the first cycle in which it reports
zero fuel, and removal affects only that account: every other account of
the set is retained by the same pass. -/
theorem C8_removal_characterization (fuel : Nat → Nat) (l : List Nat) (a : Nat) :
    a ∈ cycle_active fuel l ↔ (a ∈ l ∧ 0 < fuel a) := by
  induction l with
  | nil => simp [cycle_active]
  | cons b rest ih =>
    by_cases hb : fuel b ≤ 0
    · rw [cycle_active, if_pos hb, ih]
      constructor
      · rintro ⟨ha, hfa⟩
        exact ⟨List.mem_cons_of_mem b ha, hfa⟩
      · rintro ⟨ha, hfa⟩
        rcases List.mem_cons.mp ha with hab | ha
        · subst hab
          omega
        · exact ⟨ha, hfa⟩
    · rw [cycle_active, if_neg hb]
      constructor
      · intro ha
        rcases List.mem_cons.mp ha with hab | ha
        · subst hab
          exact ⟨List.mem_cons_self a rest, by omega⟩
        · rcases ih.mp ha with ⟨ha2, hfa⟩
          exact ⟨List.mem_cons_of_mem b ha2, hfa⟩
      · rintro ⟨ha, hfa⟩
        rcases List.mem_cons.mp ha with hab | ha
        · subst hab
          exact List.mem_cons_self a _
        · exact List.mem_cons_of_mem b (ih.mpr ⟨ha, hfa⟩)

/-- Claim C9: the outbound requests.get of get_latest_match_id in the clean
file and of get_user_fuel_info in farcaster_auto_vote.py pass no timeout at
all, refuting the claim that every outbound call to the remote service
carries a bounded timeout; the sibling calls of the clean get_user_fuel_info
and of submit_prediction do pass the recommended timeout of 10. -/
theorem C9_missing_timeouts :
    cited_outbound_timeouts.all (fun t => t.isSome) = false ∧
    none ∈ get_latest_match_id_timeouts ∧
    none ∈ get_user_fuel_info_orig_timeouts ∧
    get_user_fuel_info_clean_timeouts.all (fun t => t == some 10) = true ∧
    submit_prediction_timeouts.all (fun t => t == some 10) = true := by
  exact ⟨rfl, by decide, by decide, rfl, rfl⟩
